import Mathlib

/-!
Verification of the Transaction Airlock Core (Aegis repository).

This file shallowly embeds the decision logic of the repository's core
modules and proves or refutes the frozen specification claims:

* `sdk/core/types.ts` — proposal state and the approval / rejection
  threshold predicates (`CoreTypes`).
* `guardian-mock/src/mockFrost.ts` — the mock guardian voting flow and its
  mock FROST signature (`MockFrost`).
* `lib/vdf` demo client (`lib/vdf/examples/vdf-demo.ts`, second unit:
  `lib/vdf/src/client.ts`) — job map, `bypassVDF`, one polling step of
  `waitForProof`, `createZeroProof` (`LibVDF`).
* `sdk/core/VDF.ts` — the SDK VDF client's `createZeroProof` and the
  amount-tiered iteration schedule (`SdkVDF`).
* `sdk/mockExamples/shared/liveClients.ts` — `createLiveZeroProof` (`Live`).
* `sdk/core/middleware.ts` (third unit of `sdk/core/ZK.ts`) — the
  orchestrator `SecurityMiddleware.executeSecurely` with its helpers
  `analyzeWithAgent`, `handleVDF`, `handleVoting`, `preflight`,
  `routeIntent` (`Middleware`), together with the job-creation step of the
  VDF worker (`lib/vdf/server.ts`).

Asynchronous effects are embedded by explicit oracles: every network or
timing dependent step (fetch results, promise resolutions, clock values)
is a field of an environment record, and the embedded functions are pure
functions of that environment, translated clause by clause from the
TypeScript sources.
-/

namespace Aegis

/-- Lower-case hex digit for a nibble, as produced by Node's
`Buffer.toString("hex")`: values 0-9 map to characters 0-9 (codes 48..57),
values 10-15 map to a-f (codes 97..102). -/
def hexDigitChar (n : Nat) : Char :=
  if n < 10 then Char.ofNat (48 + n) else Char.ofNat (87 + n)

/-- Two lower-case hex characters of one byte. -/
def byteHex (b : Nat) : String :=
  String.mk [hexDigitChar (b / 16 % 16), hexDigitChar (b % 16)]

/-- Hex string of a byte sequence (Node `buf.toString("hex")`). -/
def bytesToHex (bs : List Nat) : String :=
  String.join (bs.map byteHex)

/-! ## sdk/core/types.ts -/

namespace CoreTypes

/-- Source constant `GUARDIAN_COUNT = 10`. -/
def GUARDIAN_COUNT : Nat := 10

/-- Source constant `GUARDIAN_THRESHOLD = 7` (7/10 required for approval). -/
def GUARDIAN_THRESHOLD : Nat := 7

/-- Source constant `REJECTION_THRESHOLD = 4` (more than 3 rejections = rejected). -/
def REJECTION_THRESHOLD : Nat := 4

/-- On-chain proposal state (`interface ProposalState`). -/
structure ProposalState where
  commitCount : Nat
  revealCount : Nat
  approveCount : Nat
  rejectCount : Nat
  abstainCount : Nat
  isFinalized : Bool
deriving DecidableEq

/-- Source `isProposalApproved`: `state.approveCount >= GUARDIAN_THRESHOLD`. -/
def isProposalApproved (state : ProposalState) : Bool :=
  decide (GUARDIAN_THRESHOLD ≤ state.approveCount)

/-- Source `isProposalRejected`:
`state.rejectCount > (GUARDIAN_COUNT - GUARDIAN_THRESHOLD)`. -/
def isProposalRejected (state : ProposalState) : Bool :=
  decide (GUARDIAN_COUNT - GUARDIAN_THRESHOLD < state.rejectCount)

end CoreTypes

/-! ## guardian-mock/src/mockFrost.ts

The mock network's SHA-256 calls go to Node's `crypto` module, which is
external to the repository; the embedding is parameterised by the digest
function `sha` (bytes to bytes) and the UTF-8 encoder `utf8` (string to
bytes), exactly as `crypto.createHash("sha256")` consumes them. -/

namespace MockFrost

/-- Source constant `GUARDIAN_COUNT = 10`. -/
def GUARDIAN_COUNT : Nat := 10

/-- Source constant `GUARDIAN_THRESHOLD = 7`. -/
def GUARDIAN_THRESHOLD : Nat := 7

/-- Vote choice of one guardian (source union `'APPROVE' | 'REJECT' | 'ABSTAIN'`). -/
inductive Vote where
  | APPROVE
  | REJECT
  | ABSTAIN
deriving DecidableEq

/-- Source `interface VoteDecision`. -/
structure VoteDecision where
  guardianId : Nat
  vote : Vote
deriving DecidableEq

/-- Source `interface VoteTally`. -/
structure VoteTally where
  approve : Nat
  reject : Nat
  abstain : Nat
  decisions : List VoteDecision
deriving DecidableEq

/-- Source `interface MockGuardianNetwork` (guardian ids with names, and a
random group public key). -/
structure MockGuardianNetwork where
  guardians : List (Nat × String)
  groupPublicKey : List Nat
deriving DecidableEq

/-- Source `interface VotingResult`. -/
structure VotingResult where
  tally : VoteTally
  passed : Bool
  rejected : Bool
  soliditySignature : Option (String × String)
deriving DecidableEq

/-- Source `tallyVotes`: fold the decision list, counting each branch. -/
def tallyVotes (decisions : List VoteDecision) : VoteTally :=
  decisions.foldl
    (fun t d =>
      match d.vote with
      | .APPROVE => { t with approve := t.approve + 1 }
      | .REJECT => { t with reject := t.reject + 1 }
      | .ABSTAIN => { t with abstain := t.abstain + 1 })
    { approve := 0, reject := 0, abstain := 0, decisions := decisions }

/-- Source `generateMockSignature`: `R = '0x' + sha256(proposalId)` in hex,
`z = '0x' + sha256(R-digest)` in hex — a function of the proposal id alone. -/
def generateMockSignature (sha : List Nat → List Nat) (utf8 : String → List Nat)
    (proposalId : String) : String × String :=
  let hash := sha (utf8 proposalId)
  ("0x" ++ bytesToHex hash, "0x" ++ bytesToHex (sha hash))

/-- Source `simulateFullVotingFlow`: tally, decide pass (`approve >= 7`) and
rejection (`reject >= 10 - 7 + 1`), and attach the mock signature exactly
when either threshold is met.  The 100 ms signing delay is timing only and
is dropped; the `network` argument is unused by the source body. -/
def simulateFullVotingFlow (sha : List Nat → List Nat) (utf8 : String → List Nat)
    (_network : MockGuardianNetwork) (proposalId : String)
    (decisions : List VoteDecision) : VotingResult :=
  let tally := tallyVotes decisions
  let passed : Bool := decide (GUARDIAN_THRESHOLD ≤ tally.approve)
  let rejected : Bool := decide (GUARDIAN_COUNT - GUARDIAN_THRESHOLD + 1 ≤ tally.reject)
  { tally := tally
    passed := passed
    rejected := rejected
    soliditySignature :=
      if passed || rejected then some (generateMockSignature sha utf8 proposalId)
      else none }

end MockFrost

/-! ## lib/vdf demo client (`lib/vdf/src/client.ts`, second unit of
`lib/vdf/examples/vdf-demo.ts`)

Jobs live in a `Map<string, VDFJob>`; the embedding uses an association
list keyed by job id.  Byte buffers are lists of byte values. -/

namespace LibVDF

/-- Status of a VDF job in the demo client (`'pending' | 'computing' |
'complete' | 'failed' | 'bypassed'`). -/
inductive JobStatus where
  | pending
  | computing
  | complete
  | failed
  | bypassed
deriving DecidableEq

/-- VDF proof as produced by the demo client (`lib/vdf` `VDFProof`): output
and proof are byte buffers, plus iteration and timing counters. -/
structure Proof where
  output : List Nat
  proof : List Nat
  iterations : Nat
  computeTime : Nat
deriving DecidableEq

/-- VDF job record, with the fields the client code reads and writes
(`jobId`, `status`, `progress`, `startTime`, `endTime`, `proof`, `error`). -/
structure Job where
  jobId : String
  status : JobStatus
  progress : Nat
  startTime : Nat
  endTime : Option Nat := none
  proof : Option Proof := none
  error : Option String := none
deriving DecidableEq

/-- The client's `jobs: Map<string, VDFJob>` as an association list. -/
def JobMap : Type := List (String × Job)

/-- Lookup `this.jobs.get(jobId)`: first association for the key (keys are
unique in a `Map`). -/
def getJob : JobMap → String → Option Job
  | [], _ => none
  | kv :: tl, jobId => if kv.1 = jobId then some kv.2 else getJob tl jobId

/-- Source `createZeroProof` of the demo client: `Buffer.alloc(32)` output,
`Buffer.alloc(32)` proof (32 zero BYTES, not empty), zero iterations. -/
def createZeroProof : Proof :=
  { output := List.replicate 32 0
    proof := List.replicate 32 0
    iterations := 0
    computeTime := 0 }

/-- Source `bypassVDF`: if the job exists, set its status to `bypassed` and
stamp `endTime = Date.now()` (passed here as `now`); a missing job id is a
no-op. -/
def bypassVDF (jobs : JobMap) (jobId : String) (now : Nat) : JobMap :=
  List.map
    (fun kv =>
      if kv.1 = jobId then (kv.1, { kv.2 with status := .bypassed, endTime := some now })
      else kv)
    jobs

/-- Outcome of one iteration of the `waitForProof` polling loop. -/
inductive WaitOutcome where
  | notFound
  | proofReady (p : Proof)
  | failedErr (e : Option String)
  | keepPolling
deriving DecidableEq

/-- One iteration of the source `waitForProof` loop body: a missing job
throws; `complete` with a stored proof returns it; `failed` throws the job
error; `bypassed` returns `createZeroProof()`; anything else sleeps and
polls again. -/
def waitForProofStep (jobs : JobMap) (jobId : String) : WaitOutcome :=
  match getJob jobs jobId with
  | none => .notFound
  | some job =>
    match job.status with
    | .complete =>
      match job.proof with
      | some p => .proofReady p
      | none => .keepPolling
    | .failed => .failedErr job.error
    | .bypassed => .proofReady createZeroProof
    | _ => .keepPolling

end LibVDF

/-! ## sdk/core/contract.ts — wire shapes used by the SDK -/

namespace Contract

/-- Source `interface VDFProof`: hex-string output, hex-string proof bytes,
iteration count. -/
structure VDFProof where
  output : String
  proof : String
  iterations : Nat
deriving DecidableEq

/-- Source `interface FrostSignature` (SDK shape): aggregated signature,
signed message hash, aggregated public key. -/
structure FrostSignature where
  signature : String
  message : String
  publicKey : String
deriving DecidableEq

end Contract

/-! ## sdk/core/VDF.ts (src/unnamed/part_001) -/

namespace SdkVDF

/-- Source `ITERATION_TIERS`: thresholds in wei paired with iteration
counts, highest tier first. -/
def ITERATION_TIERS : List (Int × Nat) :=
  [ (1000000000000000000000, 1000000)
  , (100000000000000000000, 500000)
  , (10000000000000000000, 100000)
  , (1000000000000000000, 10000)
  , (0, 0) ]

/-- Source `calculateIterations`: first tier whose threshold the amount
reaches; 0 if none.  NOTE: this client keys the VDF on the transaction
AMOUNT, while `middleware.ts` calls `isVDFRequired` with the ML-bot flag
and builds a `VDFRequest` without an `amount` field — the two units do not
type-check against each other (see `Middleware.isVDFRequired`). -/
def calculateIterations (amount : Int) : Nat :=
  match ITERATION_TIERS.find? (fun tier => decide (tier.1 ≤ amount)) with
  | some tier => tier.2
  | none => 0

/-- Source `isVDFRequired` of this client: `calculateIterations(amount) > 0`. -/
def isVDFRequired (amount : Int) : Bool :=
  decide (0 < calculateIterations amount)

/-- Source `createZeroProof` of `sdk/core/VDF.ts`: all-zero 32-byte output
(64 hex zeros), empty proof bytes (`'0x'`), zero iterations. -/
def createZeroProof : Contract.VDFProof :=
  { output := "0x" ++ String.mk (List.replicate 64 (Char.ofNat 48))
    proof := "0x"
    iterations := 0 }

end SdkVDF

/-! ## sdk/mockExamples/shared/liveClients.ts -/

namespace Live

/-- Shape `LiveVDFProof` as used by the live-mode examples. -/
structure LiveVDFProof where
  output : String
  proof : String
  iterations : Nat
deriving DecidableEq

/-- Source `createLiveZeroProof`: all-zero 32-byte output (64 hex zeros),
empty proof bytes (`'0x'`), zero iterations. -/
def createLiveZeroProof : LiveVDFProof :=
  { output := "0x" ++ String.mk (List.replicate 64 (Char.ofNat 48))
    proof := "0x"
    iterations := 0 }

end Live

/-! ## lib/vdf/server.ts — VDF worker job creation -/

namespace Worker

/-- Source `DEMO_ITERATIONS` default: `parseInt(process.env.VDF_ITERATIONS
|| '50000')` — the worker's T for every job (spec `vdf_iterations`, demo
value). -/
def DEMO_ITERATIONS : Nat := 50000

/-- Worker-side job as created by `handleVDFRequest` together with the
iteration count its challenge is given by `computeVDFInBackground`. -/
structure WorkerJob where
  jobId : String
  status : String
  progress : Nat
  iterations : Nat
deriving DecidableEq

/-- Source `handleVDFRequest` job creation: status `computing`, progress 0,
and the challenge carries `DEMO_ITERATIONS` iterations. -/
def createWorkerJob (jobId : String) : WorkerJob :=
  { jobId := jobId, status := "computing", progress := 0, iterations := DEMO_ITERATIONS }

end Worker

/-! ## sdk/core/middleware.ts — the orchestrator (third unit of sdk/core/ZK.ts)

Every asynchronous dependency of `executeSecurely` (fetches, promise
resolutions, the signer, the clock) is a field of `OrchestratorEnv`, and
the pipeline is a pure function of that environment, translated clause by
clause.  A thrown JavaScript exception is `Except.error` with the thrown
message. -/

namespace Middleware

/-- Source `interface TransactionIntent` (metadata fields that only feed
display and LI.FI quoting are summarised by the routing oracle). -/
structure TransactionIntent where
  type : String
  target : String
  data : String
  value : Int
  amount : Int
  sourceChain : Nat
  destChain : Option Nat
  mlBotFlagged : Option Bool
deriving DecidableEq

/-- Resolution of one `fetch` call: transport rejection, non-OK HTTP
response, or an OK response with a parsed body. -/
inductive FetchOutcome (α : Type) where
  | transportError
  | httpError (status : Nat)
  | ok (body : α)
deriving DecidableEq

/-- The `mlAnalysis` object of the agent's JSON reply; each field may be
absent (the source reads them with `?.` and `??`).  Scores are JS numbers;
the integer embedding is enough for the claims, which only involve 0. -/
structure MLAnalysisResp where
  score : Option Int
  flagged : Option Bool
  verdict : Option String
deriving DecidableEq

/-- Parsed JSON body of the agent `/review` reply. -/
structure AgentResponse where
  mlAnalysis : Option MLAnalysisResp
  proposalId : Option String
deriving DecidableEq

/-- Source `interface AgentAnalysis`. -/
structure AgentAnalysis where
  score : Int
  flagged : Bool
  proposalId : Option String
  verdict : String
deriving DecidableEq

/-- Vote counts of `VoteStatus.votes`. -/
structure VoteCounts where
  approve : Nat
  reject : Nat
  abstain : Nat
  pending : Nat
deriving DecidableEq

/-- Source `interface VoteStatus` (sdk/core/ZK.ts). -/
structure VoteStatus where
  proposalId : String
  phase : String
  votes : VoteCounts
  threshold : Nat
  isApproved : Bool
  isRejected : Bool
  frostSignature : Option Contract.FrostSignature
  expiresAt : Nat
deriving DecidableEq

/-- Transaction built by `lifiClient.buildTransaction` for a cross-chain
route (`to`, `data`, `value`). -/
structure RouteTx where
  -- the source field is named `to`, a reserved word in Lean
  toAddress : String
  data : String
  value : Int
deriving DecidableEq

/-- Source `interface ExecutionResult` (receipt object and timing dropped;
`txHash` is the receipt hash the source returns). -/
structure ExecutionResult where
  success : Bool
  txHash : String
  vdfProof : Contract.VDFProof
  frostSignature : Contract.FrostSignature
  ensName : Option String
deriving DecidableEq

/-- Oracle environment: the resolution of every asynchronous step of one
`executeSecurely` run. -/
structure OrchestratorEnv where
  /-- Result of `contract.isPaused()`. -/
  isPaused : Bool
  /-- Address of `config.signer`, if a signer is configured
  (`getSenderAddress()` throws `Signer required` otherwise). -/
  signerAddress : Option String
  /-- Result of `contract.isBlacklisted(sender)`. -/
  senderBlacklisted : Bool
  /-- The optional `sender` argument of `executeSecurely`. -/
  senderArg : Option String
  /-- Result of `provider.lookupAddress(sender)` (errors are swallowed). -/
  ensName : Option String
  /-- Resolution of `lifiClient.getQuote` + `buildTransaction` for a
  cross-chain intent. -/
  lifiRoute : Except String RouteTx
  /-- Resolution of the agent `/review` fetch. -/
  agentResult : FetchOutcome AgentResponse
  /-- Value of `generateTxHash(routedIntent)` (keccak over intent fields
  and `Date.now()`; opaque to the claims). -/
  txHash : String
  /-- Resolution of the VDF client's `requestProof` POST (job id). -/
  vdfRequestResult : Except String String
  /-- Resolution of the VDF client's `waitForProof` polling. -/
  vdfWaitResult : Except String Contract.VDFProof
  /-- Resolution of `zkClient.submitForReview` (proposal id). -/
  submitReviewResult : Except String String
  /-- Resolution of `zkClient.waitForVoteResult`. -/
  voteWaitResult : Except String VoteStatus
  /-- When both `Promise.all` arms reject: whether the VDF arm's rejection
  is observed first. -/
  vdfErrorObservedFirst : Bool
  /-- Resolution of `contract.executeSecurely` (receipt hash). -/
  receiptResult : Except String String
  /-- Resolution of `lifiClient.waitForCompletion` for cross-chain intents. -/
  lifiCompletion : Except String Unit

/-- Source `analyzeWithAgent`: the whole fetch-and-parse runs in a
`try`/`catch`; a transport error or a non-OK response (the code throws
`Agent analysis failed` on `!response.ok`) is caught and degraded to
`{score: 0, flagged: false, verdict: 'agent_error'}`; an OK body is read
with `?.`/`??` defaults. -/
def analyzeWithAgent (r : FetchOutcome AgentResponse) : AgentAnalysis :=
  match r with
  | .transportError =>
    { score := 0, flagged := false, proposalId := none, verdict := "agent_error" }
  | .httpError _ =>
    { score := 0, flagged := false, proposalId := none, verdict := "agent_error" }
  | .ok body =>
    { score := (body.mlAnalysis.bind (fun m => m.score)).getD 0
      flagged := (body.mlAnalysis.bind (fun m => m.flagged)).getD false
      proposalId := body.proposalId
      verdict := (body.mlAnalysis.bind (fun m => m.verdict)).getD "unknown" }

/-- Modelled from the spec: the flag-based `isVDFRequired` implementation
(`lib/vdf/src/params.ts`, re-exported by `lib/vdf/src/index.ts` and called
by the middleware through its VDF client as
`this.vdfClient.isVDFRequired(routedIntent.mlBotFlagged)`) is not under
`src/`.  The spec fixes its contract: the VDF path is triggered exactly by
the ML-bot flag ("VDF Trigger: ML Bot flag ONLY"; flagged transactions
require the VDF, clean transactions do not). -/
def isVDFRequired (mlBotFlagged : Bool) : Bool := mlBotFlagged

/-- Source `isCrossChain`: a destination chain is present and differs from
the source chain. -/
def isCrossChain (intent : TransactionIntent) : Bool :=
  match intent.destChain with
  | some d => decide (d ≠ intent.sourceChain)
  | none => false

/-- The zero address constant `ethers.ZeroAddress`. -/
def ZeroAddress : String := "0x0000000000000000000000000000000000000000"

/-- Source `preflight` plus the `getSenderAddress` it calls: paused
protocol, missing signer, blacklisted sender and empty / zero target each
throw, in source order. -/
def preflight (env : OrchestratorEnv) (intent : TransactionIntent) :
    Except String Unit :=
  if env.isPaused then .error "Protocol is currently paused due to security alert"
  else
    match env.signerAddress with
    | none => .error "Signer required"
    | some _ =>
      if env.senderBlacklisted then .error "Sender address is blacklisted"
      else if intent.target = "" || intent.target = ZeroAddress then
        .error "Invalid target address"
      else .ok ()

/-- Source `routeIntent`: same-chain intents pass through unchanged;
cross-chain intents are replaced by the LI.FI route's transaction
(`target`, `data`, `value` from `buildTransaction`). -/
def routeIntent (env : OrchestratorEnv) (intent : TransactionIntent) :
    Except String TransactionIntent :=
  if isCrossChain intent then
    match env.lifiRoute with
    | .error e => .error e
    | .ok tx => .ok { intent with target := tx.toAddress, data := tx.data, value := tx.value }
  else .ok intent

/-- Source `handleVDF` composed with the VDF client's `getProof`
(`requestProof` then `waitForProof`) and the worker's job creation: when
the VDF is not required the client's zero proof is returned and no job is
ever requested; when it is required, a job is created by the worker (with
`DEMO_ITERATIONS` as T) and the poll resolution is returned.  The first
component is the requested worker job, if any. -/
def handleVDF (env : OrchestratorEnv) (required : Bool) :
    Option Worker.WorkerJob × Except String Contract.VDFProof :=
  if required then
    match env.vdfRequestResult with
    | .error e => (none, .error e)
    | .ok jobId => (some (Worker.createWorkerJob jobId), env.vdfWaitResult)
  else (none, .ok SdkVDF.createZeroProof)

/-- Source `handleVoting`: submit for review, wait for the vote result,
then — in source order — throw on rejection, throw if not approved or the
FROST signature is missing, else return the signature. -/
def handleVoting (env : OrchestratorEnv) : Except String Contract.FrostSignature :=
  match env.submitReviewResult with
  | .error e => .error e
  | .ok _ =>
    match env.voteWaitResult with
    | .error e => .error e
    | .ok st =>
      if st.isRejected then
        .error ("Transaction rejected by Guardians (" ++ toString st.votes.reject
          ++ " rejections)")
      else if !st.isApproved then .error "Voting expired without reaching threshold"
      else
        match st.frostSignature with
        | none => .error "Voting expired without reaching threshold"
        | some sig => .ok sig

/-- Semantics of `Promise.all` over the two arms: both fulfilled gives the
pair; one rejection propagates; two rejections propagate whichever is
observed first (`vdfFirst`). -/
def promiseAll2 {α β : Type} (vdfFirst : Bool) (a : Except String α)
    (b : Except String β) : Except String (α × β) :=
  match a, b with
  | .ok x, .ok y => .ok (x, y)
  | .error e, .ok _ => .error e
  | .ok _, .error e => .error e
  | .error e₁, .error e₂ => .error (if vdfFirst then e₁ else e₂)

/-- Source `executeSecurely`, step by step: preflight, LI.FI routing, ENS
lookup, agent analysis when a `sender` argument is given and the intent's
flag is undefined, the `requiresVDF` decision, `Promise.all` of
`handleVDF` and `handleVoting`, on-chain execution, and (cross-chain only)
completion tracking.  The first component traces the worker job the VDF
arm requested, if any; the middleware never calls any bypass. -/
def executeSecurelyTrace (env : OrchestratorEnv) (intent : TransactionIntent) :
    Option Worker.WorkerJob × Except String ExecutionResult :=
  match preflight env intent with
  | .error e => (none, .error e)
  | .ok _ =>
    match routeIntent env intent with
    | .error e => (none, .error e)
    | .ok routed0 =>
      let ens := if env.senderArg.isSome then env.ensName else none
      let routed :=
        if env.senderArg.isSome && routed0.mlBotFlagged.isNone then
          { routed0 with mlBotFlagged := some (analyzeWithAgent env.agentResult).flagged }
        else routed0
      -- `isVDFRequired(routedIntent.mlBotFlagged)`: an undefined flag is
      -- falsy in the JS call, hence `getD false`.
      let requiresVDF := isVDFRequired (routed.mlBotFlagged.getD false)
      let vdfArm := handleVDF env requiresVDF
      let votingArm := handleVoting env
      match promiseAll2 env.vdfErrorObservedFirst vdfArm.2 votingArm with
      | .error e => (vdfArm.1, .error e)
      | .ok (vdfProof, frostSignature) =>
        match env.receiptResult with
        | .error e => (vdfArm.1, .error e)
        | .ok receiptHash =>
          if isCrossChain intent && intent.destChain.isSome then
            match env.lifiCompletion with
            | .error e => (vdfArm.1, .error e)
            | .ok _ =>
              (vdfArm.1,
               .ok (ExecutionResult.mk true receiptHash vdfProof frostSignature ens))
          else
            (vdfArm.1,
             .ok (ExecutionResult.mk true receiptHash vdfProof frostSignature ens))

/-- The value `executeSecurely` surfaces to the caller: its fulfilled
`ExecutionResult` or the message of the exception it propagates. -/
def executeSecurely (env : OrchestratorEnv) (intent : TransactionIntent) :
    Except String ExecutionResult :=
  (executeSecurelyTrace env intent).2

end Middleware

/-! ## Concrete data used to settle the claims -/

/-- A FROST threshold signature as delivered by the guardian API. -/
def sampleSig : Contract.FrostSignature :=
  { signature := "0xfrostR", message := "0xfrostMsg", publicKey := "0xfrostPk" }

/-- An approved vote resolution: 8 approve / 1 reject / 1 abstain, with
its threshold signature attached. -/
def approvedStatus : Middleware.VoteStatus :=
  { proposalId := "0xproposal", phase := "complete"
    votes := { approve := 8, reject := 1, abstain := 1, pending := 0 }
    threshold := 7, isApproved := true, isRejected := false
    frostSignature := some sampleSig, expiresAt := 1700000000 }

/-- A rejected vote resolution: 2 approve / 7 reject / 1 abstain.  The
guardian mock attaches a threshold signature to rejections too. -/
def rejectedStatus : Middleware.VoteStatus :=
  { proposalId := "0xproposal", phase := "complete"
    votes := { approve := 2, reject := 7, abstain := 1, pending := 0 }
    threshold := 7, isApproved := false, isRejected := true
    frostSignature := some sampleSig, expiresAt := 1700000000 }

/-- A completed full VDF proof (the worker's demo T of 50000 iterations). -/
def fullVDFProof : Contract.VDFProof :=
  { output := "0x77", proof := "0x88", iterations := Worker.DEMO_ITERATIONS }

/-- Benign environment: live protocol, signer configured, clean sender,
safe score, approving guardians, healthy VDF worker and executor. -/
def baseEnv : Middleware.OrchestratorEnv :=
  { isPaused := false
    signerAddress := some "0x1111111111111111111111111111111111111111"
    senderBlacklisted := false
    senderArg := some "0x1111111111111111111111111111111111111111"
    ensName := none
    lifiRoute := Except.error "LIFI unused for same-chain intents"
    agentResult := .ok
      { mlAnalysis := some { score := some 15, flagged := some false, verdict := some "safe" }
        proposalId := none }
    txHash := "0xfingerprint"
    vdfRequestResult := .ok "vdf_1"
    vdfWaitResult := .ok fullVDFProof
    submitReviewResult := .ok "0xproposal"
    voteWaitResult := .ok approvedStatus
    vdfErrorObservedFirst := true
    receiptResult := .ok "0xreceipt"
    lifiCompletion := .ok () }

/-- Same-chain swap intent with no preset ML flag. -/
def baseIntent : Middleware.TransactionIntent :=
  { type := "swap", target := "0x2222222222222222222222222222222222222222"
    data := "0xdead", value := 500, amount := 500
    sourceChain := 1, destChain := none, mlBotFlagged := none }

/-- C1 scenario environment: the agent flags the intent (score 75), the
guardians approve 7/10 while the VDF job is still computing, and the VDF
arm later resolves with the full 50000-iteration proof. -/
def c1Env : Middleware.OrchestratorEnv :=
  { baseEnv with
    agentResult := .ok
      { mlAnalysis := some { score := some 75, flagged := some true, verdict := some "suspicious" }
        proposalId := some "0xproposal" }
    voteWaitResult := .ok
      { approvedStatus with
        votes := { approve := 7, reject := 2, abstain := 1, pending := 0 } } }

/-- C2 scenario environment: unflagged intent, guardians reject 7/10. -/
def c2Env : Middleware.OrchestratorEnv :=
  { baseEnv with voteWaitResult := .ok rejectedStatus }

/-- Intent with the ML flag already decided (skips the agent call), used to
instantiate the amended C2 theorem. -/
def c2wIntent : Middleware.TransactionIntent :=
  { baseIntent with mlBotFlagged := some false }

/-- Concrete digest function standing in for SHA-256 in witnesses (any
function works; the determinism theorem is proved for all of them). -/
def wSha (bs : List Nat) : List Nat := 7 :: bs

/-- Concrete UTF-8 encoder for witnesses. -/
def wUtf8 (s : String) : List Nat := s.data.map Char.toNat

/-- First witness network. -/
def wNet1 : MockFrost.MockGuardianNetwork :=
  { guardians := [(0, "alice.eth"), (1, "bob.eth")], groupPublicKey := [1, 2, 3] }

/-- Second witness network with different key material. -/
def wNet2 : MockFrost.MockGuardianNetwork :=
  { guardians := [(0, "charlie.eth"), (1, "diana.eth")], groupPublicKey := [9, 9, 9] }

/-- Seven approving guardians (slots 0-6). -/
def wApprovals : List MockFrost.VoteDecision :=
  (List.range 7).map (fun i => { guardianId := i, vote := .APPROVE })

/-- Four rejecting guardians (slots 3-6), a different decision set and
ordering. -/
def wRejections : List MockFrost.VoteDecision :=
  (List.range 4).map (fun i => { guardianId := 6 - i, vote := .REJECT })

/-- Witness job map for the bypass idempotence claim: one computing job. -/
def wJobs : LibVDF.JobMap :=
  [("vdf_1", { jobId := "vdf_1", status := .computing, progress := 20, startTime := 1000 })]

/-- An agent reply reporting score 0 and no flag: what the degraded
(error) branch of `analyzeWithAgent` is compared against. -/
def degradedBody : Middleware.AgentResponse :=
  { mlAnalysis := some { score := some 0, flagged := some false, verdict := some "safe" }
    proposalId := none }

/-! ## Theorems settling the claims -/

/-- C3. A proposal is judged approved exactly when its approve count
reaches the approval threshold of 7 — so exactly 7 approvals suffice — and
the guardian mock's pass decision agrees with the same bound. -/
theorem c3_approved_iff_seven_approvals :
    (∀ s : CoreTypes.ProposalState,
      CoreTypes.isProposalApproved s = true ↔ 7 ≤ s.approveCount)
    ∧ (∀ (sha : List Nat → List Nat) (utf8 : String → List Nat)
        (net : MockFrost.MockGuardianNetwork) (pid : String)
        (ds : List MockFrost.VoteDecision),
        (MockFrost.simulateFullVotingFlow sha utf8 net pid ds).passed
          = decide (7 ≤ (MockFrost.tallyVotes ds).approve)) := by
  constructor
  · intro s
    simp [CoreTypes.isProposalApproved, CoreTypes.GUARDIAN_THRESHOLD]
  · intro sha utf8 net pid ds
    simp [MockFrost.simulateFullVotingFlow, MockFrost.GUARDIAN_THRESHOLD]

/-- C4. A proposal is judged rejected exactly when its reject count
strictly exceeds guardian count minus approval threshold (10 − 7 = 3),
equivalently reaches 4, and the guardian mock's rejection decision agrees
with the same bound. -/
theorem c4_rejected_iff_four_rejections :
    (∀ s : CoreTypes.ProposalState,
      CoreTypes.isProposalRejected s = true ↔ 3 < s.rejectCount)
    ∧ (∀ s : CoreTypes.ProposalState,
      CoreTypes.isProposalRejected s = true ↔ 4 ≤ s.rejectCount)
    ∧ (∀ (sha : List Nat → List Nat) (utf8 : String → List Nat)
        (net : MockFrost.MockGuardianNetwork) (pid : String)
        (ds : List MockFrost.VoteDecision),
        (MockFrost.simulateFullVotingFlow sha utf8 net pid ds).rejected
          = decide (4 ≤ (MockFrost.tallyVotes ds).reject)) := by
  refine ⟨?_, ?_, ?_⟩
  · intro s
    simp [CoreTypes.isProposalRejected, CoreTypes.GUARDIAN_COUNT,
      CoreTypes.GUARDIAN_THRESHOLD]
  · intro s
    simp [CoreTypes.isProposalRejected, CoreTypes.GUARDIAN_COUNT,
      CoreTypes.GUARDIAN_THRESHOLD]
    omega
  · intro sha utf8 net pid ds
    simp [MockFrost.simulateFullVotingFlow, MockFrost.GUARDIAN_COUNT,
      MockFrost.GUARDIAN_THRESHOLD]

/-- C5. Under the count invariant `approve + reject + abstain ≤ 10`, the
approval and rejection predicates are never both true, because the
approval threshold 7 and the rejection threshold 4 sum to 11 = N + 1. -/
theorem c5_approved_rejected_mutually_exclusive (s : CoreTypes.ProposalState)
    (h : s.approveCount + s.rejectCount + s.abstainCount ≤ 10) :
    ¬(CoreTypes.isProposalApproved s = true ∧ CoreTypes.isProposalRejected s = true) := by
  simp only [CoreTypes.isProposalApproved, CoreTypes.isProposalRejected,
    CoreTypes.GUARDIAN_COUNT, CoreTypes.GUARDIAN_THRESHOLD, decide_eq_true_eq]
  intro hc
  omega

/-- Witness for C5 at the boundary state 7 approve / 3 reject / 0 abstain. -/
theorem c5_approved_rejected_mutually_exclusive_witness :
    (7 + 3 + 0 ≤ 10)
    ∧ ¬(CoreTypes.isProposalApproved
          { commitCount := 10, revealCount := 10, approveCount := 7, rejectCount := 3,
            abstainCount := 0, isFinalized := true } = true
        ∧ CoreTypes.isProposalRejected
          { commitCount := 10, revealCount := 10, approveCount := 7, rejectCount := 3,
            abstainCount := 0, isFinalized := true } = true) :=
  ⟨by decide,
   c5_approved_rejected_mutually_exclusive
     { commitCount := 10, revealCount := 10, approveCount := 7, rejectCount := 3,
       abstainCount := 0, isFinalized := true } (by decide)⟩

/-- C8 counterexample. The lib-vdf demo client's `createZeroProof` does not
produce an empty witness: its proof bytes are `Buffer.alloc(32)`, 32 zero
bytes of length 32, refuting the claim that every core zero-proof helper
emits an empty witness. -/
theorem c8_lib_zero_proof_witness_not_empty :
    LibVDF.createZeroProof.proof = List.replicate 32 0
    ∧ LibVDF.createZeroProof.proof ≠ []
    ∧ LibVDF.createZeroProof.proof.length = 32 := by
  refine ⟨rfl, ?_, by decide⟩
  decide

/-- C8 amended. All three zero-proof helpers emit an all-zero 32-byte
output and iterations = 0; the witness is empty (`'0x'`) in
`sdk/core/VDF.ts` and `createLiveZeroProof`, while the lib-vdf demo
client's helper emits a 32-byte all-zero witness instead. -/
theorem c8_zero_proof_encodings :
    (SdkVDF.createZeroProof.output = "0x" ++ bytesToHex (List.replicate 32 0)
      ∧ SdkVDF.createZeroProof.proof = "0x" ++ bytesToHex ([] : List Nat)
      ∧ SdkVDF.createZeroProof.iterations = 0)
    ∧ (Live.createLiveZeroProof.output = "0x" ++ bytesToHex (List.replicate 32 0)
      ∧ Live.createLiveZeroProof.proof = "0x" ++ bytesToHex ([] : List Nat)
      ∧ Live.createLiveZeroProof.iterations = 0)
    ∧ (LibVDF.createZeroProof.output = List.replicate 32 0
      ∧ LibVDF.createZeroProof.proof = List.replicate 32 0
      ∧ LibVDF.createZeroProof.iterations = 0) := by
  refine ⟨⟨?_, ?_, rfl⟩, ⟨?_, ?_, rfl⟩, rfl, rfl, rfl⟩ <;> decide

/-- Looking a job up after `bypassVDF` yields the stored job with its
status forced to `bypassed` and its end time stamped. -/
theorem getJob_bypassVDF (jobs : LibVDF.JobMap) (jobId : String) (now : Nat) :
    LibVDF.getJob (LibVDF.bypassVDF jobs jobId now) jobId
      = (LibVDF.getJob jobs jobId).map
          (fun j => { j with status := .bypassed, endTime := some now }) := by
  induction jobs with
  | nil => rfl
  | cons kv tl ih =>
    by_cases hk : kv.1 = jobId
    · simp [LibVDF.bypassVDF, LibVDF.getJob, hk]
    · simpa [LibVDF.bypassVDF, LibVDF.getJob, hk] using ih

/-- C7. Bypassing a VDF job twice has the same effect as bypassing it
once: either way the job's status is `bypassed` and the next
`waitForProof` poll returns the zero-proof. -/
theorem c7_bypass_idempotent (jobs : LibVDF.JobMap) (jobId : String) (now₁ now₂ : Nat)
    (h : (LibVDF.getJob jobs jobId).isSome = true) :
    ((LibVDF.getJob (LibVDF.bypassVDF jobs jobId now₁) jobId).map LibVDF.Job.status
        = some .bypassed)
    ∧ ((LibVDF.getJob (LibVDF.bypassVDF (LibVDF.bypassVDF jobs jobId now₁) jobId now₂)
          jobId).map LibVDF.Job.status = some .bypassed)
    ∧ LibVDF.waitForProofStep (LibVDF.bypassVDF jobs jobId now₁) jobId
        = .proofReady LibVDF.createZeroProof
    ∧ LibVDF.waitForProofStep
          (LibVDF.bypassVDF (LibVDF.bypassVDF jobs jobId now₁) jobId now₂) jobId
        = .proofReady LibVDF.createZeroProof := by
  obtain ⟨j, hj⟩ := Option.isSome_iff_exists.mp h
  refine ⟨?_, ?_, ?_, ?_⟩ <;>
    simp [getJob_bypassVDF, hj, LibVDF.waitForProofStep]

/-- Witness for C7 on a one-job map holding a computing job. -/
theorem c7_bypass_idempotent_witness :
    ((LibVDF.getJob wJobs "vdf_1").isSome = true)
    ∧ ((LibVDF.getJob (LibVDF.bypassVDF wJobs "vdf_1" 2000) "vdf_1").map LibVDF.Job.status
        = some .bypassed)
    ∧ ((LibVDF.getJob (LibVDF.bypassVDF (LibVDF.bypassVDF wJobs "vdf_1" 2000) "vdf_1" 3000)
          "vdf_1").map LibVDF.Job.status = some .bypassed)
    ∧ LibVDF.waitForProofStep (LibVDF.bypassVDF wJobs "vdf_1" 2000) "vdf_1"
        = .proofReady LibVDF.createZeroProof
    ∧ LibVDF.waitForProofStep
          (LibVDF.bypassVDF (LibVDF.bypassVDF wJobs "vdf_1" 2000) "vdf_1" 3000) "vdf_1"
        = .proofReady LibVDF.createZeroProof :=
  ⟨by decide, c7_bypass_idempotent wJobs "vdf_1" 2000 3000 (by decide)⟩

/-- C10. In the guardian mock, the threshold signature attached to a
finalized proposal is a function of the proposal id alone: a signature is
attached exactly when the pass or rejection threshold is met, and any two
runs on the same proposal id that both produce a signature — whatever
their decisions, orderings or guardian key material — produce the same
one. -/
theorem c10_mock_signature_depends_only_on_proposal_id
    (sha : List Nat → List Nat) (utf8 : String → List Nat)
    (net₁ net₂ : MockFrost.MockGuardianNetwork) (pid : String)
    (ds₁ ds₂ : List MockFrost.VoteDecision) :
    ((MockFrost.simulateFullVotingFlow sha utf8 net₁ pid ds₁).soliditySignature.isSome
        = ((MockFrost.simulateFullVotingFlow sha utf8 net₁ pid ds₁).passed
            || (MockFrost.simulateFullVotingFlow sha utf8 net₁ pid ds₁).rejected))
    ∧ ((MockFrost.simulateFullVotingFlow sha utf8 net₁ pid ds₁).soliditySignature.isSome
          = true →
        (MockFrost.simulateFullVotingFlow sha utf8 net₂ pid ds₂).soliditySignature.isSome
          = true →
        (MockFrost.simulateFullVotingFlow sha utf8 net₁ pid ds₁).soliditySignature
          = (MockFrost.simulateFullVotingFlow sha utf8 net₂ pid ds₂).soliditySignature) := by
  have key : ∀ (net : MockFrost.MockGuardianNetwork) (ds : List MockFrost.VoteDecision),
      (MockFrost.simulateFullVotingFlow sha utf8 net pid ds).soliditySignature
        = if ((MockFrost.simulateFullVotingFlow sha utf8 net pid ds).passed
              || (MockFrost.simulateFullVotingFlow sha utf8 net pid ds).rejected) = true
          then some (MockFrost.generateMockSignature sha utf8 pid) else none :=
    fun net ds => rfl
  constructor
  · rw [key net₁ ds₁]
    cases h : ((MockFrost.simulateFullVotingFlow sha utf8 net₁ pid ds₁).passed
        || (MockFrost.simulateFullVotingFlow sha utf8 net₁ pid ds₁).rejected) <;> simp [h]
  · intro h₁ h₂
    rw [key net₁ ds₁] at h₁ ⊢
    rw [key net₂ ds₂] at h₂ ⊢
    cases hb₁ : ((MockFrost.simulateFullVotingFlow sha utf8 net₁ pid ds₁).passed
        || (MockFrost.simulateFullVotingFlow sha utf8 net₁ pid ds₁).rejected) <;>
      cases hb₂ : ((MockFrost.simulateFullVotingFlow sha utf8 net₂ pid ds₂).passed
          || (MockFrost.simulateFullVotingFlow sha utf8 net₂ pid ds₂).rejected) <;>
      simp_all

/-- Witness for C10: a 7-approval run on one network and a 4-rejection run
on a different network, both on proposal id `prop-42`, carry the identical
mock signature. -/
theorem c10_mock_signature_witness :
    ((MockFrost.simulateFullVotingFlow wSha wUtf8 wNet1 "prop-42" wApprovals).soliditySignature.isSome
        = true)
    ∧ ((MockFrost.simulateFullVotingFlow wSha wUtf8 wNet2 "prop-42" wRejections).soliditySignature.isSome
        = true)
    ∧ ((MockFrost.simulateFullVotingFlow wSha wUtf8 wNet1 "prop-42" wApprovals).soliditySignature
        = (MockFrost.simulateFullVotingFlow wSha wUtf8 wNet2 "prop-42" wRejections).soliditySignature) :=
  ⟨by decide, by decide,
   (c10_mock_signature_depends_only_on_proposal_id wSha wUtf8 wNet1 wNet2 "prop-42"
      wApprovals wRejections).2 (by decide) (by decide)⟩

/-- C1, evaluated at the failing input.  A flagged intent (agent score 75)
whose guardians approve 7/10 while the VDF job is still computing: the
orchestrator requests the VDF job but never bypasses it — `executeSecurely`
awaits `Promise.all` of both arms and the envelope carries the completed
full VDF proof (50000 iterations), not the zero proof the claim (and the
middleware's own header comment) promise. -/
theorem c1_flagged_approval_keeps_full_vdf_proof :
    Middleware.executeSecurelyTrace c1Env baseIntent
      = (some (Worker.createWorkerJob "vdf_1"),
         .ok (Middleware.ExecutionResult.mk true "0xreceipt" fullVDFProof sampleSig none))
    ∧ fullVDFProof.iterations = 50000
    ∧ fullVDFProof ≠ SdkVDF.createZeroProof :=
  ⟨rfl, rfl, by decide⟩

/-- C2 counterexample.  With guardians rejecting 7/10, `executeSecurely`
does not produce an envelope with the rejection threshold signature (which
the guardian API did deliver): it propagates an exception. -/
theorem c2_rejected_vote_throws_counterexample :
    Middleware.executeSecurely c2Env baseIntent
      = .error "Transaction rejected by Guardians (7 rejections)" := rfl

/-- C2 amended.  Whenever voting resolves rejected (and the VDF arm
fulfills), `executeSecurely` throws `Transaction rejected by Guardians (n
rejections)` instead of returning a rejection envelope: non-approved
outcomes surface as propagated exceptions, not as members of a
five-outcome return type. -/
theorem c2_rejected_vote_throws (env : Middleware.OrchestratorEnv)
    (intent : Middleware.TransactionIntent) (a pid : String) (b : Bool)
    (st : Middleware.VoteStatus) (p : Contract.VDFProof)
    (hpause : env.isPaused = false)
    (hsigner : env.signerAddress = some a)
    (hblack : env.senderBlacklisted = false)
    (htgt : intent.target ≠ "")
    (htgtz : intent.target ≠ Middleware.ZeroAddress)
    (hdest : intent.destChain = none)
    (hflag : intent.mlBotFlagged = some b)
    (hvdf : (Middleware.handleVDF env (Middleware.isVDFRequired b)).2 = .ok p)
    (hsub : env.submitReviewResult = .ok pid)
    (hvote : env.voteWaitResult = .ok st)
    (hrej : st.isRejected = true) :
    Middleware.executeSecurely env intent
      = .error ("Transaction rejected by Guardians ("
          ++ toString st.votes.reject ++ " rejections)") := by
  simp only [Middleware.executeSecurely, Middleware.executeSecurelyTrace,
    Middleware.preflight, Middleware.routeIntent, Middleware.isCrossChain,
    Middleware.handleVoting, Middleware.promiseAll2,
    hpause, hsigner, hblack, hdest, hflag, hsub, hvote, hrej]
  simp [htgt, htgtz, hflag, hvdf]

/-- Witness for the amended C2 at a concrete environment: unflagged
intent, 7 rejections. -/
theorem c2_rejected_vote_throws_witness :
    (rejectedStatus.isRejected = true)
    ∧ Middleware.executeSecurely c2Env c2wIntent
        = .error ("Transaction rejected by Guardians ("
            ++ toString rejectedStatus.votes.reject ++ " rejections)") :=
  ⟨rfl,
   c2_rejected_vote_throws c2Env c2wIntent
     "0x1111111111111111111111111111111111111111" "0xproposal" false
     rejectedStatus SdkVDF.createZeroProof
     rfl rfl rfl (by decide) (by decide) rfl rfl rfl rfl rfl rfl⟩

/-- C6.  A VDF worker job is requested exactly when the agent flags the
intent: flagged runs create a worker job computing with
T = DEMO_ITERATIONS (the worker's `VDF_ITERATIONS` setting), unflagged
runs request no job and — when voting approves — emit an envelope whose
VDF proof is the client's zero proof. -/
theorem c6_vdf_job_iff_flagged (env : Middleware.OrchestratorEnv)
    (intent : Middleware.TransactionIntent) (a s jid pid rh : String)
    (st : Middleware.VoteStatus) (sig : Contract.FrostSignature)
    (hpause : env.isPaused = false)
    (hsigner : env.signerAddress = some a)
    (hblack : env.senderBlacklisted = false)
    (htgt : intent.target ≠ "")
    (htgtz : intent.target ≠ Middleware.ZeroAddress)
    (hdest : intent.destChain = none)
    (hsArg : env.senderArg = some s)
    (hflag0 : intent.mlBotFlagged = none)
    (hreq : env.vdfRequestResult = .ok jid)
    (hsub : env.submitReviewResult = .ok pid)
    (hvote : env.voteWaitResult = .ok st)
    (hnrej : st.isRejected = false)
    (happ : st.isApproved = true)
    (hsig : st.frostSignature = some sig)
    (hrc : env.receiptResult = .ok rh) :
    ((Middleware.executeSecurelyTrace env intent).1
        = if (Middleware.analyzeWithAgent env.agentResult).flagged
          then some (Worker.createWorkerJob jid) else none)
    ∧ ((Middleware.executeSecurelyTrace env intent).1.isSome
        = (Middleware.analyzeWithAgent env.agentResult).flagged)
    ∧ ((Middleware.analyzeWithAgent env.agentResult).flagged = false →
        (Middleware.executeSecurelyTrace env intent).2
          = .ok (Middleware.ExecutionResult.mk true rh SdkVDF.createZeroProof sig
              env.ensName)) := by
  have htrace : Middleware.executeSecurelyTrace env intent
      = (if (Middleware.analyzeWithAgent env.agentResult).flagged
          then some (Worker.createWorkerJob jid) else none,
         if (Middleware.analyzeWithAgent env.agentResult).flagged
          then (Middleware.promiseAll2 env.vdfErrorObservedFirst env.vdfWaitResult
              (.ok sig)).map (fun pr =>
                Middleware.ExecutionResult.mk true rh pr.1 pr.2 env.ensName)
          else .ok (Middleware.ExecutionResult.mk true rh SdkVDF.createZeroProof sig
              env.ensName)) := by
    cases hfl : (Middleware.analyzeWithAgent env.agentResult).flagged <;>
    · simp only [Middleware.executeSecurelyTrace, Middleware.preflight,
        Middleware.routeIntent, Middleware.isCrossChain, Middleware.handleVDF,
        Middleware.handleVoting, Middleware.isVDFRequired,
        hpause, hsigner, hblack, hdest, hsArg, hflag0, hreq, hsub, hvote, hnrej,
        happ, hsig, hrc, hfl]
      cases hw : env.vdfWaitResult <;>
        simp [htgt, htgtz, hflag0, hw, hrc, Middleware.promiseAll2, Except.map]
  refine ⟨?_, ?_, ?_⟩
  · rw [htrace]
  · rw [htrace]
    cases hfl : (Middleware.analyzeWithAgent env.agentResult).flagged <;> simp [hfl]
  · intro hfl
    rw [htrace]
    simp [hfl]

/-- Witness for C6 at the benign environment: safe score, no job
requested, approved envelope carries the zero proof. -/
theorem c6_vdf_job_iff_flagged_witness :
    ((Middleware.analyzeWithAgent baseEnv.agentResult).flagged = false)
    ∧ ((Middleware.executeSecurelyTrace baseEnv baseIntent).1 = none)
    ∧ ((Middleware.executeSecurelyTrace baseEnv baseIntent).2
        = .ok (Middleware.ExecutionResult.mk true "0xreceipt" SdkVDF.createZeroProof
            sampleSig none)) := by
  have h := c6_vdf_job_iff_flagged baseEnv baseIntent
    "0x1111111111111111111111111111111111111111"
    "0x1111111111111111111111111111111111111111" "vdf_1" "0xproposal" "0xreceipt"
    approvedStatus sampleSig
    rfl rfl rfl (by decide) (by decide) rfl rfl rfl rfl rfl rfl rfl rfl rfl rfl
  exact ⟨rfl, h.1, h.2.2 rfl⟩

/-- C9.  A scorer transport error or non-OK response degrades the analysis
to score 0, unflagged, verdict `agent_error`, and the run continues
exactly as a run whose scorer returned a score-0 unflagged verdict — the
failure is not propagated. -/
theorem c9_scorer_failure_fail_open :
    (Middleware.analyzeWithAgent .transportError
        = { score := 0, flagged := false, proposalId := none, verdict := "agent_error" })
    ∧ (∀ status : Nat, Middleware.analyzeWithAgent (.httpError status)
        = { score := 0, flagged := false, proposalId := none, verdict := "agent_error" })
    ∧ (∀ (env : Middleware.OrchestratorEnv) (intent : Middleware.TransactionIntent),
        Middleware.executeSecurelyTrace { env with agentResult := .transportError } intent
          = Middleware.executeSecurelyTrace { env with agentResult := .ok degradedBody }
              intent)
    ∧ (∀ (env : Middleware.OrchestratorEnv) (intent : Middleware.TransactionIntent)
        (status : Nat),
        Middleware.executeSecurelyTrace { env with agentResult := .httpError status } intent
          = Middleware.executeSecurelyTrace { env with agentResult := .ok degradedBody }
              intent) :=
  ⟨rfl, fun _ => rfl, fun _ _ => rfl, fun _ _ _ => rfl⟩

end Aegis
